import Mathlib

/-!
Verification development for the ProjectKickV2 CSV-analytics server.

The JavaScript sources are shallowly embedded below:

* section `JSModel`: JavaScript primitive values (string / number / boolean /
  null-or-undefined), rows (objects parsed from one CSV line), property lookup,
  truthiness, strict equality, `typeof`, and string helpers
  (`toLowerCase`, `includes`, `trim`).  JavaScript numbers are modelled as
  exact decimals `mant / 10 ^ exp` (type `DecNum`); the sources only ever
  build numbers from decimal literals in CSV cells and from divisions that are
  immediately formatted with `toFixed(1)`, which is modelled exactly over the
  integers (`pctTenths`), so no IEEE-754 rounding is modelled.
* section `Utils`: `DataUtils.convertValue` and `DataUtils.cleanData` from
  `server/utils.js`.
* section `Inspector`: the enhanced `analyzeDataStructure` (the second, and
  therefore effective, declaration of that name in the server file).
* section `Analyzer`: the enhanced `analyzeSLAPerformance` together with
  `generatePerformanceInsights` from the server file.

JavaScript objects used as dictionaries are modelled as insertion-ordered
association lists.  A JavaScript exception is modelled by returning
`Except.error`.
-/

section JSModel

/-- Does the character list start with the given pattern? -/
def charsStartWith : List Char → List Char → Bool
  | _, [] => true
  | [], _ :: _ => false
  | a :: as, b :: bs => a == b && charsStartWith as bs

/-- Does the character list contain the given pattern as a contiguous run? -/
def charsHaveSub : List Char → List Char → Bool
  | [], pat => pat.isEmpty
  | a :: t, pat => charsStartWith (a :: t) pat || charsHaveSub t pat

/-- JavaScript `s.includes(pat)`. -/
def strIncludes (s pat : String) : Bool := charsHaveSub s.data pat.data

/-- JavaScript `s.toLowerCase()` (ASCII case folding, which is all the
sources rely on). -/
def strLower (s : String) : String := String.mk (s.data.map Char.toLower)

/-- JavaScript `s.trim()`. -/
def jsTrim (s : String) : String :=
  String.mk (((s.data.dropWhile Char.isWhitespace).reverse.dropWhile
    Char.isWhitespace).reverse)

/-- JavaScript `s.substring(0, n)` (clipped at the end of the string). -/
def strTakeN (s : String) (n : Nat) : String := String.mk (s.data.take n)

/-- Exact decimal number `mant / 10 ^ exp`, the value model for JavaScript
numbers appearing in this code base (CSV cell literals and `toFixed`
roundings; no other numeric results are observed by the programs). -/
structure DecNum where
  mant : Int
  exp : Nat
deriving DecidableEq, Repr

/-- Power of ten as an integer. -/
def pow10 (e : Nat) : Int := 10 ^ e

/-- Value equality of two decimals (JavaScript `===` on numbers). -/
def DecNum.valEq (a b : DecNum) : Bool := a.mant * pow10 b.exp == b.mant * pow10 a.exp

/-- Value order on decimals (JavaScript `<` on numbers). -/
def DecNum.blt (a b : DecNum) : Bool := a.mant * pow10 b.exp < b.mant * pow10 a.exp

/-- Value order on decimals (JavaScript `<=` on numbers). -/
def DecNum.ble (a b : DecNum) : Bool := a.mant * pow10 b.exp ≤ b.mant * pow10 a.exp

/-- Exact difference of two decimals (JavaScript `-` on numbers). -/
def DecNum.sub (a b : DecNum) : DecNum :=
  ⟨a.mant * pow10 b.exp - b.mant * pow10 a.exp, a.exp + b.exp⟩

/-- The rational value of a decimal. -/
def DecNum.toRat (a : DecNum) : ℚ := (a.mant : ℚ) / (10 : ℚ) ^ a.exp

/-- A decimal whose value is a natural number. -/
def DecNum.ofNat (n : Nat) : DecNum := ⟨(n : Int), 0⟩

/-- A JavaScript primitive value as it occurs in parsed CSV data.  `null`
also stands for `undefined`: every consuming site in the sources treats the
two identically (truthiness, `=== null || === undefined` tests, and the
non-null sample filters). -/
inductive JSValue where
  | null : JSValue
  | str : String → JSValue
  | num : DecNum → JSValue
  | bool : Bool → JSValue
deriving DecidableEq, Repr

/-- One parsed CSV row: an object, modelled as an insertion-ordered
association list from column name to cell value. -/
abbrev JSRow := List (String × JSValue)

/-- JavaScript property read `row[col]`; a missing key yields `undefined`,
which this model folds into `JSValue.null`. -/
def getCol (row : JSRow) (c : String) : JSValue :=
  match row.find? (fun p => p.1 == c) with
  | some p => p.2
  | none => .null

/-- JavaScript truthiness of a primitive value (there is no NaN in this
model: the sources never produce one on the paths modelled here). -/
def JSValue.truthy : JSValue → Bool
  | .null => false
  | .str s => !(s == "")
  | .num q => !(q.mant == 0)
  | .bool b => b

/-- JavaScript strict equality `===` on primitive values. -/
def jsStrictEq : JSValue → JSValue → Bool
  | .null, .null => true
  | .str s, .str t => s == t
  | .num a, .num b => a.valEq b
  | .bool a, .bool b => a == b
  | _, _ => false

/-- JavaScript `typeof` tag of a value (`typeof null` is "object"). -/
def typeofTag : JSValue → String
  | .null => "object"
  | .str _ => "string"
  | .num _ => "number"
  | .bool _ => "boolean"

/-- Decimal digits of a natural number, zero-padded on the left to `k`
places. -/
def padZeros (s : String) (k : Nat) : String :=
  String.mk (List.replicate (k - s.data.length) '0' ++ s.data)

/-- Canonical decimal rendering of a `DecNum` (JavaScript number-to-string:
no trailing fractional zeros, no ".0").  The exact JavaScript shortest-digit
algorithm is not reproduced; all the consuming code cares about is that the
rendering of a number never contains a letter, so that the keyword searches
in the SLA classifier can never match it, and that integers render as their
digit strings (for object keys). -/
def renderDecNum (d : DecNum) : String :=
  let n : Nat := d.mant.natAbs
  let p : Nat := (10 : Nat) ^ d.exp
  let ip : Nat := n / p
  let fpDigits : List Char :=
    ((padZeros (toString (n % p)) d.exp).data.reverse.dropWhile (· == '0')).reverse
  let core : String :=
    toString ip ++ (if fpDigits.isEmpty then "" else "." ++ String.mk fpDigits)
  if d.mant < 0 then "-" ++ core else core

/-- JavaScript `String(v)` / `v.toString()` for primitive values. -/
def JSValue.jsToString : JSValue → String
  | .null => "null"
  | .str s => s
  | .num q => renderDecNum q
  | .bool b => if b then "true" else "false"

/-- Lookup in an insertion-ordered association list. -/
def lookupA {α : Type} (m : List (String × α)) (k : String) : Option α :=
  match m.find? (fun p => p.1 == k) with
  | some p => some p.2
  | none => none

/-- JavaScript `if (!m[k]) m[k] = init`: append a fresh entry when the key is
absent. -/
def ensureKey {α : Type} (m : List (String × α)) (k : String) (init : α) :
    List (String × α) :=
  if m.any (fun p => p.1 == k) then m else m ++ [(k, init)]

/-- In-place update of the value stored under a key. -/
def modifyKey {α : Type} (m : List (String × α)) (k : String) (f : α → α) :
    List (String × α) :=
  m.map (fun p => if p.1 == k then (p.1, f p.2) else p)

/-- JavaScript `m[k] = (m[k] || 0) + 1` pattern used for the nested counters. -/
def incKey (m : List (String × Nat)) (k : String) : List (String × Nat) :=
  modifyKey (ensureKey m k 0) k (· + 1)

/-- Value of a list of decimal digit characters, most significant first. -/
def digitsToNat (l : List Char) : Nat :=
  l.foldl (fun n c => n * 10 + (c.toNat - '0'.toNat)) 0

end JSModel

section Utils

/-- Test for the regular expression `^\d+$`. -/
def allDigits (s : String) : Bool := !s.data.isEmpty && s.data.all Char.isDigit

/-- Test for the regular expression `^\d*\.\d+$`. -/
def floatShape (s : String) : Bool :=
  match (s.data.span Char.isDigit).2 with
  | '.' :: frac => !frac.isEmpty && frac.all Char.isDigit
  | _ => false

/-- Fractional value of a string matching `^\d*\.\d+$`: the mantissa is all
the digits run together and the exponent the length of the fractional part
(the exact value JavaScript `parseFloat` returns, up to IEEE-754 rounding,
which this model idealises away). -/
def floatVal (s : String) : DecNum :=
  let ip := (s.data.span Char.isDigit).1
  let fp := ((s.data.span Char.isDigit).2).drop 1
  ⟨(digitsToNat (ip ++ fp) : Int), fp.length⟩

/-- Calendar date-with-time components, the parse result of one of the four
`moment` formats accepted by `convertValue`. -/
structure DateParts where
  year : Nat
  month : Nat
  day : Nat
  hour : Nat
  minute : Nat
  second : Nat
deriving DecidableEq, Repr

/-- Gregorian leap-year test. -/
def isLeapYear (y : Nat) : Bool := (y % 4 == 0 && y % 100 != 0) || y % 400 == 0

/-- Number of days in a month. -/
def daysInMonth (y m : Nat) : Nat :=
  if m == 2 then (if isLeapYear y then 29 else 28)
  else if [4, 6, 9, 11].contains m then 30 else 31

/-- Calendar validity of a year/month/day triple (what `moment` strict
parsing checks after the shape matches). -/
def validYMD (y m d : Nat) : Bool :=
  1 ≤ m && m ≤ 12 && 1 ≤ d && d ≤ daysInMonth y m

/-- Validity of a time-of-day triple. -/
def validHMS (h mi s : Nat) : Bool := h < 24 && mi < 60 && s < 60

/-- Shape match for the `moment` format string `YYYY-MM-DD`. -/
def shapeYMD (cs : List Char) : Option (Nat × Nat × Nat) :=
  match cs with
  | [a, b, c, d, s1, e, f, s2, g, h] =>
    if a.isDigit && b.isDigit && c.isDigit && d.isDigit && s1 == '-' &&
       e.isDigit && f.isDigit && s2 == '-' && g.isDigit && h.isDigit then
      some (digitsToNat [a, b, c, d], digitsToNat [e, f], digitsToNat [g, h])
    else none
  | _ => none

/-- Shape match for the slash formats `MM/DD/YYYY` and `DD/MM/YYYY`; returns
the first two-digit group, the second two-digit group, and the year. -/
def shapeSlash (cs : List Char) : Option (Nat × Nat × Nat) :=
  match cs with
  | [a, b, s1, c, d, s2, e, f, g, h] =>
    if a.isDigit && b.isDigit && s1 == '/' && c.isDigit && d.isDigit &&
       s2 == '/' && e.isDigit && f.isDigit && g.isDigit && h.isDigit then
      some (digitsToNat [a, b], digitsToNat [c, d], digitsToNat [e, f, g, h])
    else none
  | _ => none

/-- Shape match for the `moment` format string `YYYY-MM-DD HH:mm:ss`. -/
def shapeYMDHMS (cs : List Char) : Option (Nat × Nat × Nat × Nat × Nat × Nat) :=
  match cs with
  | [a, b, c, d, s1, e, f, s2, g, h, sp, i, j, c1, k, l, c2, m, n] =>
    if a.isDigit && b.isDigit && c.isDigit && d.isDigit && s1 == '-' &&
       e.isDigit && f.isDigit && s2 == '-' && g.isDigit && h.isDigit &&
       sp == ' ' && i.isDigit && j.isDigit && c1 == ':' && k.isDigit &&
       l.isDigit && c2 == ':' && m.isDigit && n.isDigit then
      some (digitsToNat [a, b, c, d], digitsToNat [e, f], digitsToNat [g, h],
            digitsToNat [i, j], digitsToNat [k, l], digitsToNat [m, n])
    else none
  | _ => none

/-- Strict `moment(trimmed, ['YYYY-MM-DD', 'MM/DD/YYYY', 'DD/MM/YYYY',
'YYYY-MM-DD HH:mm:ss'], true)`: the formats are tried in order and the first
one whose shape matches and whose calendar values are valid wins (so an
ambiguous slash date resolves as MM/DD first). Fixed-width digit groups are
required, matching the padded formats the spec documents. -/
def momentStrictParse (s : String) : Option DateParts :=
  match shapeYMD s.data with
  | some (y, m, d) => if validYMD y m d then some ⟨y, m, d, 0, 0, 0⟩ else none
  | none =>
    match shapeSlash s.data with
    | some (g1, g2, y) =>
      if validYMD y g1 g2 then some ⟨y, g1, g2, 0, 0, 0⟩
      else if validYMD y g2 g1 then some ⟨y, g2, g1, 0, 0, 0⟩
      else none
    | none =>
      match shapeYMDHMS s.data with
      | some (y, m, d, h, mi, sec) =>
        if validYMD y m d && validHMS h mi sec then some ⟨y, m, d, h, mi, sec⟩
        else none
      | none => none

/-- ISO-8601 rendering `moment(...).toISOString()` of a parsed date (the
host clock is modelled as running in UTC, so no zone shift is applied). -/
def isoRender (dp : DateParts) : String :=
  padZeros (toString dp.year) 4 ++ "-" ++ padZeros (toString dp.month) 2 ++ "-" ++
  padZeros (toString dp.day) 2 ++ "T" ++ padZeros (toString dp.hour) 2 ++ ":" ++
  padZeros (toString dp.minute) 2 ++ ":" ++ padZeros (toString dp.second) 2 ++ ".000Z"

/-- DataUtils.convertValue from server/utils.js: non-strings pass through;
strings are trimmed and classified, first match winning, as base-10 integer,
fraction, strict-format date (re-rendered as an ISO timestamp), boolean
keyword, and finally the trimmed string itself. -/
def convertValue (value : JSValue) : JSValue :=
  match value with
  | .str s =>
    let trimmed := jsTrim s
    if allDigits trimmed then .num ⟨(digitsToNat trimmed.data : Int), 0⟩
    else if floatShape trimmed then .num (floatVal trimmed)
    else
      match momentStrictParse trimmed with
      | some dp => .str (isoRender dp)
      | none =>
        let lowerValue := strLower trimmed
        if ["true", "yes", "1", "y"].contains lowerValue then .bool true
        else if ["false", "no", "0", "n"].contains lowerValue then .bool false
        else .str trimmed
  | v => v

/-- Result object of DataUtils.cleanData.  The two count fields are `Option`s
because the early-return objects in the source carry no `originalCount` /
`cleanedCount` properties at all; `none` models the absent property. -/
structure CleanResult where
  data : List JSRow
  errors : List String
  warnings : List String
  originalCount : Option Nat
  cleanedCount : Option Nat
deriving DecidableEq, Repr

/-- The `value === null || value === undefined || value === ''` test of
cleanData. -/
def nullish (v : JSValue) : Bool := jsStrictEq v .null || jsStrictEq v (.str "")

/-- One cell of a cleaned row: nullish raw cells are stored as null, all
others pass through convertValue. -/
def cleanCell (v : JSValue) : JSValue := if nullish v then .null else convertValue v

/-- The cleaned row built for one raw row: every declared column is visited
in order (the per-column body of the `columns.forEach` loop). -/
def cleanRow (columns : List String) (row : JSRow) : JSRow :=
  columns.map (fun c => (c, cleanCell (getCol row c)))

/-- The `hasValidData` flag of the row loop: set when at least one declared
column holds a non-nullish raw value. -/
def rowHasValidData (columns : List String) (row : JSRow) : Bool :=
  columns.any (fun c => !(nullish (getCol row c)))

/-- The row loop of cleanData: returns the retained cleaned rows and the
per-row warnings, threading the 1-based row index. -/
def processRows (columns : List String) : List JSRow → Nat → List JSRow × List String
  | [], _ => ([], [])
  | row :: rest, idx =>
    let tail := processRows columns rest (idx + 1)
    if rowHasValidData columns row then (cleanRow columns row :: tail.1, tail.2)
    else (tail.1, ("Row " ++ toString idx ++ " contains no valid data") :: tail.2)

/-- DataUtils.cleanData from server/utils.js.  `none` input models a
non-array argument (the `!Array.isArray(data)` branch). The 80% data-quality
threshold `cleanedData.length < data.length * 0.8` is evaluated exactly
(multiplied out over the naturals). -/
def cleanData (input : Option (List JSRow)) : CleanResult :=
  match input with
  | none => { data := [], errors := ["No data provided"], warnings := [],
              originalCount := none, cleanedCount := none }
  | some rows =>
    if rows.isEmpty then
      { data := [], errors := ["No data provided"], warnings := [],
        originalCount := none, cleanedCount := none }
    else
      let columns := (rows.headD []).map (fun p => p.1)
      if columns.isEmpty then
        { data := [], errors := ["No columns detected in data"], warnings := [],
          originalCount := none, cleanedCount := none }
      else
        let processed := processRows columns rows 1
        let warnings :=
          if processed.1.length * 5 < rows.length * 4 then
            processed.2 ++ ["More than 20% of rows were filtered out due to data quality issues"]
          else processed.2
        { data := processed.1, errors := [], warnings := warnings,
          originalCount := some rows.length,
          cleanedCount := some processed.1.length }

end Utils

section Percentages

/-- The integer number of tenths produced by the JavaScript expression
`((x / t) * 100).toFixed(1)`: tenths-rounding to the nearest with ties
toward plus infinity, computed exactly as
`⌊(1000 * x) / t + 1/2⌋ = (2000 * x + t) / (2 * t)` with Euclidean integer
division (the divisor is positive at every call site, `t > 0`). -/
def pctTenths (x : Int) (t : Nat) : Int := (2000 * x + t) / (2 * (t : Int))

/-- Digit rendering of a non-negative number of tenths, one forced decimal
place: 500 becomes "50.0". -/
def renderNatTenths (m : Nat) : String := toString (m / 10) ++ "." ++ toString (m % 10)

/-- Rendering of a signed number of tenths as `Number.prototype.toFixed(1)`
renders the corresponding value: -1000 becomes "-100.0". -/
def renderTenths (n : Int) : String :=
  if n < 0 then "-" ++ renderNatTenths n.natAbs else renderNatTenths n.toNat

/-- The full JavaScript expression `((x / t) * 100).toFixed(1)` for `t > 0`. -/
def fixed1 (x : Int) (t : Nat) : String := renderTenths (pctTenths x t)

/-- Rounding a rational to tenths, nearest, ties toward plus infinity - the
idealised meaning of `toFixed(1)` used in theorem statements. -/
def tenthsOf (q : ℚ) : Int := ⌊10 * q + 1 / 2⌋

/-- Statement-level form of `q.toFixed(1)`: the rendered tenths-rounding of
the rational `q`. -/
def toFixed1 (q : ℚ) : String := renderTenths (tenthsOf q)

/-- A string is a bounded percentage when it is the initial literal "0" or
renders a number of tenths between 0 and 1000, i.e. a value between 0 and
100 inclusive. -/
def pctBounded (s : String) : Prop :=
  s = "0" ∨ ∃ n : Int, 0 ≤ n ∧ n ≤ 1000 ∧ s = renderTenths n

/-- The exact integer computation `pctTenths` agrees with the idealised
tenths-rounding of `(x / t) * 100`. -/
theorem pctTenths_eq_tenthsOf (x : Int) (t : Nat) (ht : 0 < t) :
    pctTenths x t = tenthsOf (((x : ℚ) / t) * 100) := by
  have h : (10 * (((x : ℚ) / t) * 100) + 1 / 2) =
      ((2000 * x + t : Int) : ℚ) / ((2 * t : Nat) : Int) := by
    have ht2 : (t : ℚ) ≠ 0 := by positivity
    push_cast
    field_simp
    ring
  have h2 := Rat.floor_intCast_div_natCast (2000 * x + t) (2 * t)
  unfold tenthsOf
  rw [h]
  push_cast at h2 ⊢
  rw [h2]
  simp [pctTenths]

/-- Bounds on the exact tenths computation: for `0 ≤ x ≤ t` the rendered
percentage is between 0.0 and 100.0. -/
theorem pctTenths_bounds (x : Int) (t : Nat) (ht : 0 < t) (hx0 : 0 ≤ x)
    (hxt : x ≤ (t : Int)) : 0 ≤ pctTenths x t ∧ pctTenths x t ≤ 1000 := by
  rw [pctTenths_eq_tenthsOf x t ht]
  have htQ : (0 : ℚ) < (t : ℚ) := by exact_mod_cast ht
  have hxQ : (0 : ℚ) ≤ (x : ℚ) := by exact_mod_cast hx0
  have hdiv : (0 : ℚ) ≤ (x : ℚ) / t := div_nonneg hxQ (le_of_lt htQ)
  have hone : (x : ℚ) / t ≤ 1 := (div_le_one htQ).mpr (by exact_mod_cast hxt)
  constructor
  · apply Int.le_floor.mpr
    push_cast
    nlinarith
  · have hlt : (tenthsOf (((x : ℚ) / t) * 100)) < 1001 := by
      apply Int.floor_lt.mpr
      push_cast
      nlinarith
    omega

/-- A percentage produced by `fixed1` with a numerator between 0 and the
denominator is bounded. -/
theorem fixed1_bounded (x : Int) (t : Nat) (ht : 0 < t) (hx0 : 0 ≤ x)
    (hxt : x ≤ (t : Int)) : pctBounded (fixed1 x t) :=
  Or.inr ⟨pctTenths x t, (pctTenths_bounds x t ht hx0 hxt).1,
    (pctTenths_bounds x t ht hx0 hxt).2, rfl⟩

end Percentages

section Inspector

/-- First-occurrence deduplication with an explicit equality test - the
`[...new Set(list)]` idiom (and `new Set(list).size` via the length). -/
def dedupFirstBy {α : Type} (eq : α → α → Bool) (l : List α) : List α :=
  l.foldl (fun acc t => if acc.any (fun u => eq u t) then acc else acc ++ [t]) []

/-- The non-null samples used for type inference: the first 100 rows'
values in a column, dropping `null`, `undefined` and `''`. -/
def sampleVals (data : List JSRow) (col : String) : List JSValue :=
  ((data.take 100).map (fun r => getCol r col)).filter
    (fun v => !(jsStrictEq v .null) && !(jsStrictEq v (.str "")))

/-- The per-column inferred type of analyzeDataStructure: the distinct
`typeof` tags of the non-null samples; exactly one distinct tag reports that
tag and anything else (zero tags included) reports "mixed". -/
def columnTypeOf (data : List JSRow) (col : String) : String :=
  match dedupFirstBy (fun a b => a == b) ((sampleVals data col).map typeofTag) with
  | [t] => t
  | _ => "mixed"

/-- Leading-decimal string parse, the exact value of JavaScript
`parseFloat(s)` on the numeric strings this code produces (an input with no
leading digits at all would be NaN in JavaScript; that case is unreachable
here - every parsed field is a `toFixed` result or the literal "0" - and is
mapped to 0). -/
def jsParseDec (s : String) : DecNum :=
  let cs := s.data
  let neg := charsStartWith cs ['-']
  let cs2 := if neg then cs.drop 1 else cs
  let ip := (cs2.span Char.isDigit).1
  let fp :=
    match (cs2.span Char.isDigit).2 with
    | '.' :: more => (more.span Char.isDigit).1
    | _ => []
  let mant : Int := (digitsToNat (ip ++ fp) : Int)
  ⟨if neg then -mant else mant, fp.length⟩

/-- JavaScript `parseFloat(v)` for the primitive values this code applies it
to (numbers pass through; strings are parsed; other primitives would be NaN
and do not occur). -/
def jsParseFloatV (v : JSValue) : DecNum :=
  match v with
  | .num d => d
  | .str s => jsParseDec s
  | _ => ⟨0, 0⟩

/-- Per-column null/uniqueness statistics of analyzeDataStructure. -/
structure ColPattern where
  nullCount : Nat
  nullPercentage : String
  uniqueCount : Nat
  uniquePercentage : String
deriving DecidableEq, Repr

/-- Per-column quality assessment of analyzeDataStructure.  `completeness`
is the JavaScript number `100 - nullPercentage` (string coerced to its
numeric value). -/
structure ColQuality where
  completeness : DecNum
  consistency : String
  validity : String
deriving DecidableEq, Repr

/-- The name-pattern column lists of analyzeDataStructure. -/
structure SpecialColumns where
  dateColumns : List String
  statusColumns : List String
  userColumns : List String
  idColumns : List String
deriving DecidableEq, Repr

/-- The descriptor returned by the enhanced analyzeDataStructure. -/
structure DataStructure where
  totalRows : Nat
  columns : List String
  columnTypes : List (String × String)
  columnPatterns : List (String × ColPattern)
  dataQuality : List (String × ColQuality)
  sample : List JSRow
  specialColumns : SpecialColumns
  hasDateColumns : Bool
  hasStatusColumns : Bool
  hasUserColumns : Bool
  qualityScore : String
  recommendations : List String
deriving DecidableEq, Repr

/-- Exact sum of two decimals (JavaScript `+` on numbers). -/
def DecNum.add (a b : DecNum) : DecNum :=
  ⟨a.mant * pow10 b.exp + b.mant * pow10 a.exp, a.exp + b.exp⟩

/-- The falsy-or-empty test of the inspector's null count:
`!row[col] || row[col] === null || row[col] === undefined || row[col] === ''`
(every disjunct after the first is subsumed by falsiness). -/
def inspectorNullish (v : JSValue) : Bool := !v.truthy

/-- The nullCount / uniqueCount / percentage block computed for one column
over the full row set. -/
def columnPatternOf (data : List JSRow) (totalRows : Nat) (col : String) : ColPattern :=
  let nullCount := data.countP (fun row => inspectorNullish (getCol row col))
  let uniqueCount := (dedupFirstBy jsStrictEq (data.map (fun row => getCol row col))).length
  { nullCount := nullCount
    nullPercentage := fixed1 nullCount totalRows
    uniqueCount := uniqueCount
    uniquePercentage := fixed1 uniqueCount totalRows }

/-- The per-column quality record: completeness 100 minus the (coerced)
null percentage, consistency from the `uniqueCount < totalRows * 0.8` test
(evaluated exactly), validity from sample presence. -/
def columnQualityOf (data : List JSRow) (totalRows : Nat) (col : String) : ColQuality :=
  let pat := columnPatternOf data totalRows col
  { completeness := DecNum.sub ⟨100, 0⟩ (jsParseDec pat.nullPercentage)
    consistency := if pat.uniqueCount * 5 < totalRows * 4 then "High" else "Medium"
    validity := if (sampleVals data col).length > 0 then "Valid" else "Empty" }

/-- Date-like column-name test of the enhanced inspector. -/
def isDateColName (col : String) : Bool :=
  strIncludes (strLower col) "date" || strIncludes (strLower col) "time" ||
  strIncludes (strLower col) "created" || strIncludes (strLower col) "updated" ||
  strIncludes (strLower col) "resolved"

/-- Status-like column-name test of the enhanced inspector. -/
def isStatusColName (col : String) : Bool :=
  strIncludes (strLower col) "status" || strIncludes (strLower col) "state" ||
  strIncludes (strLower col) "priority" || strIncludes (strLower col) "sla"

/-- User-like column-name test of the enhanced inspector. -/
def isUserColName (col : String) : Bool :=
  strIncludes (strLower col) "user" || strIncludes (strLower col) "agent" ||
  strIncludes (strLower col) "assignee" || strIncludes (strLower col) "name" ||
  strIncludes (strLower col) "resolved by"

/-- Identifier-like column-name test of the enhanced inspector. -/
def isIdColName (col : String) : Bool :=
  strIncludes (strLower col) "id" || strIncludes (strLower col) "number" ||
  strIncludes (strLower col) "#"

/-- calculateDataQualityScore: the average completeness is compared with the
95 / 85 / 70 thresholds.  The division by the column count is transposed to
a multiplication, which is exact for a positive count; a zero count (no
columns) makes every JavaScript NaN comparison false and lands on "Poor",
modelled by the explicit first branch. -/
def calculateDataQualityScore (dataQuality : List (String × ColQuality)) : String :=
  let scores := dataQuality.map (fun p => p.2.completeness)
  let n := scores.length
  let total := scores.foldl DecNum.add ⟨0, 0⟩
  if n == 0 then "Poor"
  else if DecNum.ble ⟨(95 * n : Int), 0⟩ total then "Excellent"
  else if DecNum.ble ⟨(85 * n : Int), 0⟩ total then "Good"
  else if DecNum.ble ⟨(70 * n : Int), 0⟩ total then "Fair"
  else "Poor"

/-- generateDataRecommendations: high-null columns and missing
date/status/user capability warnings. -/
def generateDataRecommendations (columnPatterns : List (String × ColPattern))
    (specialColumns : SpecialColumns) : List String :=
  (columnPatterns.filterMap (fun p =>
    if DecNum.blt ⟨50, 0⟩ (jsParseDec p.2.nullPercentage) then
      some ("Column \"" ++ p.1 ++ "\" has " ++ p.2.nullPercentage ++
        "% missing values - consider data cleansing")
    else none)) ++
  (if specialColumns.dateColumns.isEmpty then
    ["No date columns detected - trend analysis will be limited"] else []) ++
  (if specialColumns.statusColumns.isEmpty then
    ["No status columns detected - SLA analysis may be limited"] else []) ++
  (if specialColumns.userColumns.isEmpty then
    ["No user/agent columns detected - performance analysis will be limited"] else [])

/-- The enhanced analyzeDataStructure (the later of the two declarations of
that name in the server file, which by JavaScript hoisting is the one in
effect): null for empty input, otherwise the full descriptor. -/
def analyzeDataStructure (input : Option (List JSRow)) : Option DataStructure :=
  match input with
  | none => none
  | some data =>
    if data.isEmpty then none
    else
      let columns := (data.headD []).map (fun p => p.1)
      let totalRows := data.length
      let columnPatterns := columns.map (fun col => (col, columnPatternOf data totalRows col))
      let dataQuality := columns.map (fun col => (col, columnQualityOf data totalRows col))
      let specialColumns : SpecialColumns :=
        { dateColumns := columns.filter isDateColName
          statusColumns := columns.filter isStatusColName
          userColumns := columns.filter isUserColName
          idColumns := columns.filter isIdColName }
      some
        { totalRows := totalRows
          columns := columns
          columnTypes := columns.map (fun col => (col, columnTypeOf data col))
          columnPatterns := columnPatterns
          dataQuality := dataQuality
          sample := data.take 10
          specialColumns := specialColumns
          hasDateColumns := !specialColumns.dateColumns.isEmpty
          hasStatusColumns := !specialColumns.statusColumns.isEmpty
          hasUserColumns := !specialColumns.userColumns.isEmpty
          qualityScore := calculateDataQualityScore dataQuality
          recommendations := generateDataRecommendations columnPatterns specialColumns }

end Inspector

section Analyzer

/-- One of the two top-level SLA buckets, with its initial percentage
literals '0'. -/
structure SLABucket where
  violations : Nat
  compliance : Nat
  total : Nat
  compliancePercentage : String
  violationPercentage : String
deriving DecidableEq, Repr

/-- The freshly initialised bucket of the analysis object literal. -/
def SLABucket.init : SLABucket := ⟨0, 0, 0, "0", "0"⟩

/-- Per-agent tracking record.  `complianceRate` starts as the number 100
and becomes a `toFixed` string in the post-pass; `topCategory` is absent
(null) until the post-pass writes it. -/
structure AgentStats where
  total : Nat
  responseViolations : Nat
  resolutionViolations : Nat
  totalViolations : Nat
  complianceRate : JSValue
  averageResponseTime : DecNum
  categories : List (String × Nat)
  priorities : List (String × Nat)
  topCategory : JSValue
deriving DecidableEq, Repr

/-- Freshly initialised agent record. -/
def AgentStats.init : AgentStats :=
  ⟨0, 0, 0, 0, .num ⟨100, 0⟩, ⟨0, 0⟩, [], [], .null⟩

/-- Per-category tracking record (`agents` is initialised and never
written by the source; `complianceRate` is absent until the post-pass). -/
structure CategoryStats where
  total : Nat
  responseViolations : Nat
  resolutionViolations : Nat
  agents : List (String × Nat)
  averageResolutionTime : DecNum
  complianceRate : JSValue
deriving DecidableEq, Repr

/-- Freshly initialised category record. -/
def CategoryStats.init : CategoryStats := ⟨0, 0, 0, [], ⟨0, 0⟩, .null⟩

/-- Per-priority tracking record. -/
structure PriorityStats where
  total : Nat
  responseViolations : Nat
  resolutionViolations : Nat
  complianceRate : JSValue
deriving DecidableEq, Repr

/-- Freshly initialised priority record. -/
def PriorityStats.init : PriorityStats := ⟨0, 0, 0, .num ⟨100, 0⟩⟩

/-- A date / weekday / month counting bucket. -/
structure TimeBucket where
  total : Nat
  violations : Nat
deriving DecidableEq, Repr

/-- Freshly initialised time bucket. -/
def TimeBucket.init : TimeBucket := ⟨0, 0⟩

/-- The daily / weekly / monthly trend maps (weekly is initialised and never
written by the source). -/
structure PerformanceTrends where
  daily : List (String × TimeBucket)
  weekly : List (String × TimeBucket)
  monthly : List (String × TimeBucket)
deriving DecidableEq, Repr

/-- One entry of the ranked agent-performance list built by
generatePerformanceInsights. -/
structure AgentPerf where
  agent : String
  complianceRate : DecNum
  totalTickets : Nat
  violations : Nat
deriving DecidableEq, Repr

/-- One entry of the ranked category list of the insights. -/
structure CategoryPerf where
  category : String
  total : Nat
  complianceRate : DecNum
  violations : Nat
deriving DecidableEq, Repr

/-- One entry of the weekday pattern list of the insights (`day` is the
weekday name, or undefined for an invalid-date bucket; `violationRate` is a
`toFixed` string, or the number 0 for an empty bucket). -/
structure DayPattern where
  day : JSValue
  total : Nat
  violations : Nat
  violationRate : JSValue
deriving DecidableEq, Repr

/-- One rule-based recommendation. -/
structure Recommendation where
  area : String
  recommendation : String
  impact : String
  effort : String
deriving DecidableEq, Repr

/-- The insights object of the analysis. -/
structure Insights where
  topPerformers : List AgentPerf
  improvementAreas : List AgentPerf
  categoryInsights : List CategoryPerf
  timePatterns : List DayPattern
  recommendations : List Recommendation
deriving DecidableEq, Repr

/-- The insights object before generatePerformanceInsights runs. -/
def Insights.empty : Insights := ⟨[], [], [], [], []⟩

/-- The full analysis object built by the enhanced analyzeSLAPerformance. -/
structure SLAAnalysis where
  totalTickets : Nat
  firstResponseSLA : SLABucket
  resolutionSLA : SLABucket
  agents : List (String × AgentStats)
  categories : List (String × CategoryStats)
  timePatterns : List (String × TimeBucket)
  priorityAnalysis : List (String × PriorityStats)
  performanceTrends : PerformanceTrends
  insights : Insights
deriving DecidableEq, Repr

/-- Days since 1970-01-01 of a Gregorian calendar date (standard civil-date
computation with floor divisions). -/
def daysFromCivil (y : Int) (m d : Nat) : Int :=
  let y2 : Int := if m ≤ 2 then y - 1 else y
  let era : Int := Int.fdiv y2 400
  let yoe : Int := y2 - era * 400
  let mp : Nat := (m + 9) % 12
  let doy : Int := ((153 * mp + 2) / 5 + d - 1 : Nat)
  let doe : Int := yoe * 365 + Int.fdiv yoe 4 - Int.fdiv yoe 100 + doy
  era * 146097 + doe - 719468

/-- Weekday index of a calendar date, 0 = Sunday .. 6 = Saturday
(1970-01-01 was a Thursday, index 4). -/
def weekdayOf (y m d : Nat) : Nat := (((daysFromCivil y m d) + 4).emod 7).toNat

/-- The object key produced by `new Date(createdDate).getDay()`: a valid
ISO-prefixed date string (the shape `toISOString` and the cleaned CSV dates
produce, evaluated on a UTC host) yields its weekday as a decimal key, and
anything else is an invalid date whose NaN day indexes the literal key
"NaN". -/
def jsGetDayKey (s : String) : String :=
  match shapeYMD (s.data.take 10) with
  | some (y, m, d) => if validYMD y m d then toString (weekdayOf y m d) else "NaN"
  | none => "NaN"

/-- The violation keyword test of the status classifier (already
lower-cased input). -/
def isViolationText (s : String) : Bool :=
  strIncludes s "violated" || strIncludes s "breach" || strIncludes s "missed" ||
  strIncludes s "overdue" || strIncludes s "fail"

/-- The compliance keyword test of the status classifier. -/
def isComplianceText (s : String) : Bool :=
  strIncludes s "within" || strIncludes s "met" || strIncludes s "compliant" ||
  strIncludes s "achieved" || strIncludes s "success"

/-- The `ticket[c1] || ticket[c2] || ...` candidate-column chain: the first
truthy value wins, null when none is truthy. -/
def resolveFirstTruthy (ticket : JSRow) : List String → JSValue
  | [] => .null
  | c :: rest =>
    let v := getCol ticket c
    if v.truthy then v else resolveFirstTruthy ticket rest

/-- The candidate columns searched for a first-response SLA status. -/
def firstResponseColumns : List String :=
  ["First Response Status", "First Response SLA", "Response Status",
   "first_response_status", "Response SLA Status", "First Response Time Status"]

/-- The candidate columns searched for a resolution SLA status. -/
def resolutionColumns : List String :=
  ["Resolution Status", "Resolution SLA", "Resolve Status",
   "resolution_status", "Resolution SLA Status", "Resolution Time Status"]

/-- The truthy-or-default key resolution used for agent, category and
priority (the resolved value is coerced to a string when used as an object
key). -/
def keyFromValue (v : JSValue) (dflt : String) : String :=
  if v.truthy then v.jsToString else dflt

/-- The initialisation-and-increment block run for every ticket: lazily
create the agent / category / priority / date / weekday / month entries,
then increment each total and the agent's per-category and per-priority
tallies. -/
def bumpCounters (st : SLAAnalysis) (agent category priority dateKey dayKey monthKey : String) :
    SLAAnalysis :=
  let agents := ensureKey st.agents agent AgentStats.init
  let categories := ensureKey st.categories category CategoryStats.init
  let priorities := ensureKey st.priorityAnalysis priority PriorityStats.init
  let timeP := ensureKey st.timePatterns dateKey TimeBucket.init
  let daily := ensureKey st.performanceTrends.daily dayKey TimeBucket.init
  let monthly := ensureKey st.performanceTrends.monthly monthKey TimeBucket.init
  let agents := modifyKey agents agent (fun a =>
    { a with total := a.total + 1,
             categories := incKey a.categories category,
             priorities := incKey a.priorities priority })
  let categories := modifyKey categories category (fun c => { c with total := c.total + 1 })
  let priorities := modifyKey priorities priority (fun p => { p with total := p.total + 1 })
  let timeP := modifyKey timeP dateKey (fun t => { t with total := t.total + 1 })
  let daily := modifyKey daily dayKey (fun t => { t with total := t.total + 1 })
  let monthly := modifyKey monthly monthKey (fun t => { t with total := t.total + 1 })
  { st with agents := agents, categories := categories, priorityAnalysis := priorities,
            timePatterns := timeP,
            performanceTrends := { st.performanceTrends with daily := daily, monthly := monthly } }

/-- The SLA status block, shared shape of the first-response and resolution
passes: a truthy status increments the bucket total and is classified by
keyword search over the lower-cased string; a violation additionally bumps
every violation counter, a compliance match bumps only the bucket's
compliance counter, and an unrecognised status changes nothing further. -/
def applySLA (isResponse : Bool) (statusV : JSValue)
    (agent category priority dateKey dayKey monthKey : String) (st : SLAAnalysis) :
    SLAAnalysis :=
  if !statusV.truthy then st
  else
    let st1 :=
      if isResponse then
        { st with firstResponseSLA :=
            { st.firstResponseSLA with total := st.firstResponseSLA.total + 1 } }
      else
        { st with resolutionSLA :=
            { st.resolutionSLA with total := st.resolutionSLA.total + 1 } }
    let statusLower := strLower statusV.jsToString
    if isViolationText statusLower then
      let st2 :=
        if isResponse then
          { st1 with firstResponseSLA :=
              { st1.firstResponseSLA with violations := st1.firstResponseSLA.violations + 1 } }
        else
          { st1 with resolutionSLA :=
              { st1.resolutionSLA with violations := st1.resolutionSLA.violations + 1 } }
      { st2 with
        agents := modifyKey st2.agents agent (fun a =>
          if isResponse then { a with responseViolations := a.responseViolations + 1 }
          else { a with resolutionViolations := a.resolutionViolations + 1 }),
        categories := modifyKey st2.categories category (fun c =>
          if isResponse then { c with responseViolations := c.responseViolations + 1 }
          else { c with resolutionViolations := c.resolutionViolations + 1 }),
        priorityAnalysis := modifyKey st2.priorityAnalysis priority (fun p =>
          if isResponse then { p with responseViolations := p.responseViolations + 1 }
          else { p with resolutionViolations := p.resolutionViolations + 1 }),
        timePatterns := modifyKey st2.timePatterns dateKey
          (fun t => { t with violations := t.violations + 1 }),
        performanceTrends := { st2.performanceTrends with
          daily := modifyKey st2.performanceTrends.daily dayKey
            (fun t => { t with violations := t.violations + 1 }),
          monthly := modifyKey st2.performanceTrends.monthly monthKey
            (fun t => { t with violations := t.violations + 1 }) } }
    else if isComplianceText statusLower then
      if isResponse then
        { st1 with firstResponseSLA :=
            { st1.firstResponseSLA with compliance := st1.firstResponseSLA.compliance + 1 } }
      else
        { st1 with resolutionSLA :=
            { st1.resolutionSLA with compliance := st1.resolutionSLA.compliance + 1 } }
    else st1

/-- The body of the per-ticket loop once the created-date string is in hand. -/
def processTicketDated (st : SLAAnalysis) (ticket : JSRow) (createdDate : String) :
    SLAAnalysis :=
  let agent := keyFromValue (resolveFirstTruthy ticket ["Agent", "Resolved by", "Assignee"]) "Unknown"
  let category := keyFromValue (resolveFirstTruthy ticket ["Category", "Sub-Category", "Type"]) "Unknown"
  let priority := keyFromValue (resolveFirstTruthy ticket ["Priority", "Urgency"]) "Medium"
  let dateKey := strTakeN createdDate 10
  let dayKey := jsGetDayKey createdDate
  let monthKey := strTakeN createdDate 7
  let st1 := bumpCounters st agent category priority dateKey dayKey monthKey
  let st2 := applySLA true (resolveFirstTruthy ticket firstResponseColumns)
    agent category priority dateKey dayKey monthKey st1
  applySLA false (resolveFirstTruthy ticket resolutionColumns)
    agent category priority dateKey dayKey monthKey st2

/-- The per-ticket loop body.  The created date falls back to the current
timestamp `nowISO` (passed in as a parameter to keep the model
deterministic); a truthy non-string created-date value makes the source
call `.substring` on a number or boolean, which throws a TypeError, modelled
as `Except.error`. -/
def processTicket (nowISO : String) (st : SLAAnalysis) (ticket : JSRow) :
    Except String SLAAnalysis :=
  match resolveFirstTruthy ticket ["Created Date", "Date Created", "Created"] with
  | .null => .ok (processTicketDated st ticket nowISO)
  | .str s => .ok (processTicketDated st ticket s)
  | _ => .error "TypeError: createdDate.substring is not a function"

/-- The `data.forEach` loop: an exception aborts the whole analysis. -/
def runTickets (nowISO : String) : SLAAnalysis → List JSRow → Except String SLAAnalysis
  | st, [] => .ok st
  | st, t :: ts =>
    match processTicket nowISO st t with
    | .error e => .error e
    | .ok st2 => runTickets nowISO st2 ts

/-- The percentage post-pass of one bucket: nothing happens for an empty
bucket (the initial '0' strings survive); otherwise the two `toFixed(1)`
percentages are written. -/
def finalizeBucket (b : SLABucket) : SLABucket :=
  if b.total > 0 then
    { b with compliancePercentage := fixed1 ((b.total : Int) - b.violations) b.total,
             violationPercentage := fixed1 (b.violations : Int) b.total }
  else b

/-- The `reduce` that finds an agent's most frequent category (later keys
win ties; the initial accumulator is the first key, or 'Unknown' when the
agent has no categories, which cannot happen for agents created by the
loop). -/
def topCategoryOf (cats : List (String × Nat)) : String :=
  let keys := cats.map (fun p => p.1)
  keys.foldl (fun a b =>
    if (lookupA cats a).getD 0 > (lookupA cats b).getD 0 then a else b)
    (keys.headD "Unknown")

/-- The per-agent post-pass: total violations, the (unclamped) compliance
rate, and the top category. -/
def finalizeAgent (a : AgentStats) : AgentStats :=
  let tv := a.responseViolations + a.resolutionViolations
  { a with totalViolations := tv,
           complianceRate :=
             if a.total > 0 then .str (fixed1 ((a.total : Int) - tv) a.total)
             else .num ⟨100, 0⟩,
           topCategory := .str (topCategoryOf a.categories) }

/-- The per-category post-pass. -/
def finalizeCategory (c : CategoryStats) : CategoryStats :=
  let tv := c.responseViolations + c.resolutionViolations
  { c with complianceRate :=
      if c.total > 0 then .str (fixed1 ((c.total : Int) - tv) c.total)
      else .num ⟨100, 0⟩ }

/-- The per-priority post-pass. -/
def finalizePriority (p : PriorityStats) : PriorityStats :=
  let tv := p.responseViolations + p.resolutionViolations
  { p with complianceRate :=
      if p.total > 0 then .str (fixed1 ((p.total : Int) - tv) p.total)
      else .num ⟨100, 0⟩ }

/-- Insertion step of the stable comparator sort: the resident element `y`
stays in front of the incoming `x` exactly when the comparator orders it
strictly first. -/
def jsInsert {α : Type} (lt : α → α → Bool) (x : α) : List α → List α
  | [] => [x]
  | y :: ys => if lt y x then y :: jsInsert lt x ys else x :: y :: ys

/-- `Array.prototype.sort` with a numeric comparator `cmp` (stable, as
required since ES2019); `lt y x` renders `cmp(y, x) < 0`. -/
def jsStableSort {α : Type} (lt : α → α → Bool) (l : List α) : List α :=
  l.foldr (jsInsert lt) []

/-- `Math.max(...)` over a non-empty rate list (the sole call site is
guarded by a more-than-one-agent test). -/
def maxD : List DecNum → DecNum
  | [] => ⟨0, 0⟩
  | x :: xs => xs.foldl (fun a b => if DecNum.blt a b then b else a) x

/-- `Math.min(...)` over a non-empty rate list. -/
def minD : List DecNum → DecNum
  | [] => ⟨0, 0⟩
  | x :: xs => xs.foldl (fun a b => if DecNum.blt b a then b else a) x

/-- The weekday-name array indexed by the (string) weekday key; an index
outside '0'..'6' (the NaN bucket) reads undefined. -/
def dayNameOf (k : String) : JSValue :=
  match k with
  | "0" => .str "Sunday"
  | "1" => .str "Monday"
  | "2" => .str "Tuesday"
  | "3" => .str "Wednesday"
  | "4" => .str "Thursday"
  | "5" => .str "Friday"
  | "6" => .str "Saturday"
  | _ => .null

/-- The ranked agent-performance list: one entry per agent (insertion
order), then a stable sort descending on the parsed compliance rate. -/
def agentPerfOf (analysis : SLAAnalysis) : List AgentPerf :=
  jsStableSort (fun y x => DecNum.blt x.complianceRate y.complianceRate)
    (analysis.agents.map (fun p =>
      { agent := p.1, complianceRate := jsParseFloatV p.2.complianceRate,
        totalTickets := p.2.total, violations := p.2.totalViolations }))

/-- generatePerformanceInsights from the server file. -/
def generatePerformanceInsights (analysis : SLAAnalysis) : Insights :=
  let agentPerformance := agentPerfOf analysis
  let categoryPerformance : List CategoryPerf :=
    jsStableSort (fun y x => DecNum.blt y.complianceRate x.complianceRate)
      (analysis.categories.map (fun p =>
        { category := p.1, total := p.2.total,
          complianceRate := jsParseFloatV p.2.complianceRate,
          violations := p.2.responseViolations + p.2.resolutionViolations }))
  let dailyPatterns : List DayPattern :=
    jsStableSort (fun y x => DecNum.blt (jsParseFloatV x.violationRate) (jsParseFloatV y.violationRate))
      (analysis.performanceTrends.daily.map (fun p =>
        { day := dayNameOf p.1, total := p.2.total, violations := p.2.violations,
          violationRate :=
            if p.2.total > 0 then .str (fixed1 (p.2.violations : Int) p.2.total)
            else .num ⟨0, 0⟩ }))
  let recs1 : List Recommendation :=
    if DecNum.blt (jsParseDec analysis.firstResponseSLA.compliancePercentage) ⟨95, 0⟩ then
      [⟨"First Response Time", "Implement automated ticket routing and priority alerts",
        "high", "medium"⟩]
    else []
  let recs2 : List Recommendation :=
    if DecNum.blt (jsParseDec analysis.resolutionSLA.compliancePercentage) ⟨90, 0⟩ then
      [⟨"Resolution Time", "Create knowledge base and escalation procedures",
        "high", "medium"⟩]
    else []
  let recs3 : List Recommendation :=
    if analysis.agents.length > 1 then
      let rates := agentPerformance.map (fun p => p.complianceRate)
      if DecNum.blt ⟨20, 0⟩ (DecNum.sub (maxD rates) (minD rates)) then
        [⟨"Team Performance", "Implement peer mentoring and standardized training",
          "medium", "low"⟩]
      else []
    else []
  { topPerformers := agentPerformance.take 3
    improvementAreas := (agentPerformance.filter (fun p => DecNum.blt p.complianceRate ⟨90, 0⟩)).take 3
    categoryInsights := categoryPerformance
    timePatterns := dailyPatterns
    recommendations := recs1 ++ recs2 ++ recs3 }

/-- The whole post-pass of analyzeSLAPerformance, in source order. -/
def finalize (st : SLAAnalysis) : SLAAnalysis :=
  let st1 := { st with firstResponseSLA := finalizeBucket st.firstResponseSLA,
                       resolutionSLA := finalizeBucket st.resolutionSLA }
  let agents2 := st1.agents.map (fun (p : String × AgentStats) => (p.1, finalizeAgent p.2))
  let st2 := { st1 with agents := agents2 }
  let cats2 := st2.categories.map (fun (p : String × CategoryStats) => (p.1, finalizeCategory p.2))
  let st3 := { st2 with categories := cats2 }
  let pris2 := st3.priorityAnalysis.map (fun (p : String × PriorityStats) => (p.1, finalizePriority p.2))
  let st4 := { st3 with priorityAnalysis := pris2 }
  { st4 with insights := generatePerformanceInsights st4 }

/-- The analysis object literal at the top of analyzeSLAPerformance. -/
def initialAnalysis (n : Nat) : SLAAnalysis :=
  { totalTickets := n, firstResponseSLA := SLABucket.init,
    resolutionSLA := SLABucket.init, agents := [], categories := [],
    timePatterns := [], priorityAnalysis := [],
    performanceTrends := ⟨[], [], []⟩, insights := Insights.empty }

/-- The enhanced analyzeSLAPerformance from the server file (the one the
file exports).  `none` input models a null/undefined argument; `nowISO` is
the current timestamp the source reads from the clock when no created-date
column is present. -/
def analyzeSLAPerformance (nowISO : String) (input : Option (List JSRow)) :
    Except String (Option SLAAnalysis) :=
  match input with
  | none => .ok none
  | some rows =>
    if rows.isEmpty then .ok none
    else
      match runTickets nowISO (initialAnalysis rows.length) rows with
      | .error e => .error e
      | .ok st => .ok (some (finalize st))

end Analyzer

section UtilsLemmas

/-- A non-nullish value never normalizes to null: every classification
branch of convertValue returns a string, number or boolean. -/
theorem convertValue_ne_null (v : JSValue) (h : nullish v = false) :
    convertValue v ≠ JSValue.null := by
  cases v with
  | null => simp [nullish, jsStrictEq] at h
  | str s =>
    rcases hm : momentStrictParse (jsTrim s) with _ | dp <;>
      simp only [convertValue, hm] <;> split_ifs <;> simp
  | num d => simp [convertValue]
  | bool b => simp [convertValue]

/-- A cleaned cell is null exactly when the raw cell was nullish. -/
theorem cleanCell_eq_null (v : JSValue) : (cleanCell v == JSValue.null) = nullish v := by
  unfold cleanCell
  by_cases h : nullish v
  · simp [h]
  · simp only [h, if_neg]
    simp only [Bool.not_eq_true] at h
    simpa using convertValue_ne_null v h

/-- A row's cleaned values are all null - the row carries no valid data. -/
def allNullNormalized (columns : List String) (row : JSRow) : Bool :=
  (cleanRow columns row).all (fun p => p.2 == JSValue.null)

/-- The hasValidData flag is the negation of the all-null test on the
cleaned row. -/
theorem rowHasValidData_eq (columns : List String) (row : JSRow) :
    rowHasValidData columns row = !allNullNormalized columns row := by
  unfold rowHasValidData allNullNormalized cleanRow
  induction columns with
  | nil => rfl
  | cons c cs ih =>
    simp only [List.any_cons, List.map_cons, List.all_cons, ih, cleanCell_eq_null]
    cases nullish (getCol row c) <;> simp

/-- Retained-row count plus dropped-row count is the input row count. -/
theorem processRows_length (columns : List String) (rows : List JSRow) (idx : Nat) :
    (processRows columns rows idx).1.length +
      rows.countP (fun r => allNullNormalized columns r) = rows.length := by
  induction rows generalizing idx with
  | nil => simp [processRows]
  | cons r rs ih =>
    have h := ih (idx + 1)
    simp only [processRows, List.countP_cons]
    rw [rowHasValidData_eq]
    cases hr : allNullNormalized columns r <;> simp [hr] <;> omega

end UtilsLemmas

section UtilsClaims

/-- C8: convertValue applies its classification rules in order with the
first match winning: "123" becomes the integer 123, "4.5" the number 4.5
(the decimal 45 / 10^1), "true" the boolean true, "hello" stays the string
"hello"; and in general any string whose trim matches the digits-only
pattern becomes its base-10 integer value before the boolean rules are
consulted. -/
theorem convertValue_first_match_wins :
    convertValue (.str "123") = .num ⟨123, 0⟩ ∧
    convertValue (.str "4.5") = .num ⟨45, 1⟩ ∧
    convertValue (.str "true") = .bool true ∧
    convertValue (.str "hello") = .str "hello" ∧
    ∀ s : String, allDigits (jsTrim s) = true →
      convertValue (.str s) = .num ⟨(digitsToNat (jsTrim s).data : Int), 0⟩ := by
  refine ⟨by decide, by decide, by decide, by decide, ?_⟩
  intro s h
  unfold convertValue
  simp [h]

/-- Witness for C8: the digits-only rule fires on a padded numeral,
producing its base-10 value (and not the boolean that " 1 " would suggest). -/
theorem convertValue_first_match_wins_witness :
    allDigits (jsTrim " 0042 ") = true ∧ convertValue (.str " 0042 ") = .num ⟨42, 0⟩ := by
  refine ⟨by decide, ?_⟩
  exact (convertValue_first_match_wins.2.2.2.2 " 0042 " (by decide)).trans (by decide)

/-- C4 counterexample: on the empty-input early return the result object
carries no originalCount and no cleanedCount property at all (both are
`none` in the model), so the claim that the declared contract's count
fields are present on this path is false. -/
theorem cleanData_empty_has_no_counts :
    (cleanData (some ([] : List JSRow))).errors = ["No data provided"] ∧
    (cleanData (some ([] : List JSRow))).originalCount = none ∧
    (cleanData (some ([] : List JSRow))).cleanedCount = none :=
  ⟨rfl, rfl, rfl⟩

/-- C4 (amended): for an empty array or a non-array input, cleanData
returns empty data together with exactly the one error "No data provided"
and no warnings, but the returned object omits the originalCount and
cleanedCount fields declared by the contract. -/
theorem cleanData_no_data_result :
    cleanData none =
      { data := [], errors := ["No data provided"], warnings := [],
        originalCount := none, cleanedCount := none } ∧
    cleanData (some ([] : List JSRow)) =
      { data := [], errors := ["No data provided"], warnings := [],
        originalCount := none, cleanedCount := none } :=
  ⟨rfl, rfl⟩

/-- C7: whenever cleanData reports counts (non-empty input with at least
one declared column), cleanedCount is originalCount minus the number of
rows whose every declared column normalized to null, and in particular
cleanedCount never exceeds originalCount. -/
theorem cleanData_row_count (rows : List JSRow) (h1 : rows ≠ [])
    (h2 : ((rows.headD []).map (fun p => p.1)) ≠ []) :
    (cleanData (some rows)).originalCount = some rows.length ∧
    (cleanData (some rows)).cleanedCount =
      some (rows.length -
        rows.countP (fun r => allNullNormalized ((rows.headD []).map (fun p => p.1)) r)) ∧
    rows.length -
        rows.countP (fun r => allNullNormalized ((rows.headD []).map (fun p => p.1)) r) ≤
      rows.length := by
  have he : rows.isEmpty = false := by
    cases rows with
    | nil => exact absurd rfl h1
    | cons r rs => rfl
  have hc : ((rows.headD []).map (fun p => p.1)).isEmpty = false := by
    cases hm : (rows.headD []).map (fun p => p.1) with
    | nil => exact absurd hm h2
    | cons c cs => rfl
  have hlen := processRows_length ((rows.headD []).map (fun p => p.1)) rows 1
  simp only [cleanData, he, hc, Bool.false_eq_true, if_false, Option.some.injEq]
  refine ⟨by trivial, ?_, by omega⟩
  omega

/-- Witness for C7 at a two-row dataset whose second row is entirely empty:
two original rows, one cleaned row. -/
theorem cleanData_row_count_witness :
    (cleanData (some [[("A", JSValue.str "1"), ("B", JSValue.null)],
                      [("A", JSValue.str ""), ("B", JSValue.null)]])).originalCount = some 2 ∧
    (cleanData (some [[("A", JSValue.str "1"), ("B", JSValue.null)],
                      [("A", JSValue.str ""), ("B", JSValue.null)]])).cleanedCount = some 1 := by
  have h := cleanData_row_count
    [[("A", JSValue.str "1"), ("B", JSValue.null)],
     [("A", JSValue.str ""), ("B", JSValue.null)]] (by decide) (by decide)
  exact ⟨h.1, h.2.1.trans (by decide)⟩

end UtilsClaims

section InspectorLemmas

/-- Membership through the first-occurrence dedup fold. -/
theorem dedupFoldl_mem {α : Type} (eq : α → α → Bool)
    (heq : ∀ a b : α, eq a b = true ↔ a = b) (l : List α) (x : α) :
    ∀ acc : List α,
      (x ∈ l.foldl (fun acc t => if acc.any (fun u => eq u t) then acc else acc ++ [t]) acc) ↔
        (x ∈ acc ∨ x ∈ l) := by
  induction l with
  | nil => intro acc; simp
  | cons t ts ih =>
    intro acc
    simp only [List.foldl_cons]
    by_cases h : acc.any (fun u => eq u t)
    · rw [if_pos h, ih]
      have ht : t ∈ acc := by
        rcases List.any_eq_true.mp h with ⟨u, hu, hut⟩
        rwa [(heq u t).mp hut] at hu
      constructor
      · rintro (hx | hx)
        · exact Or.inl hx
        · exact Or.inr (List.mem_cons_of_mem t hx)
      · rintro (hx | hx)
        · exact Or.inl hx
        · rcases List.mem_cons.mp hx with hx | hx
          · exact Or.inl (hx ▸ ht)
          · exact Or.inr hx
    · rw [if_neg h, ih]
      simp only [List.mem_append, List.mem_singleton, List.mem_cons]
      tauto

/-- Membership in the deduplicated list is membership in the original. -/
theorem dedupFirstBy_mem {α : Type} (eq : α → α → Bool)
    (heq : ∀ a b : α, eq a b = true ↔ a = b) (l : List α) (x : α) :
    x ∈ dedupFirstBy eq l ↔ x ∈ l := by
  have h := dedupFoldl_mem eq heq l x []
  simpa [dedupFirstBy] using h

/-- The first-occurrence dedup never repeats an element. -/
theorem dedupFoldl_nodup {α : Type} (eq : α → α → Bool)
    (heq : ∀ a b : α, eq a b = true ↔ a = b) (l : List α) :
    ∀ acc : List α, acc.Nodup →
      (l.foldl (fun acc t => if acc.any (fun u => eq u t) then acc else acc ++ [t]) acc).Nodup := by
  induction l with
  | nil => intro acc h; simpa using h
  | cons t ts ih =>
    intro acc hacc
    simp only [List.foldl_cons]
    by_cases h : acc.any (fun u => eq u t)
    · rw [if_pos h]; exact ih acc hacc
    · rw [if_neg h]
      refine ih (acc ++ [t]) ?_
      have ht : t ∉ acc := by
        intro hmem
        exact h (List.any_eq_true.mpr ⟨t, hmem, (heq t t).mpr rfl⟩)
      simpa [List.nodup_append] using ⟨hacc, ht⟩

/-- The deduplicated list has no duplicates. -/
theorem dedupFirstBy_nodup {α : Type} (eq : α → α → Bool)
    (heq : ∀ a b : α, eq a b = true ↔ a = b) (l : List α) :
    (dedupFirstBy eq l).Nodup :=
  dedupFoldl_nodup eq heq l [] List.nodup_nil

/-- A non-empty list all of whose elements coincide deduplicates to the
singleton. -/
theorem dedupFirstBy_all_single {α : Type} (eq : α → α → Bool)
    (heq : ∀ a b : α, eq a b = true ↔ a = b) (l : List α) (t : α)
    (hne : l ≠ []) (hall : ∀ x ∈ l, x = t) : dedupFirstBy eq l = [t] := by
  have step : ∀ ys : List α, (∀ y ∈ ys, y = t) →
      ys.foldl (fun acc u => if acc.any (fun w => eq w u) then acc else acc ++ [u]) [t] = [t] := by
    intro ys
    induction ys with
    | nil => intro _; rfl
    | cons y ys2 ih =>
      intro hy
      have hyt : y = t := hy y (List.mem_cons_self y ys2)
      have hany : ([t].any (fun w => eq w y)) = true :=
        List.any_eq_true.mpr ⟨t, List.mem_singleton_self t, (heq t y).mpr hyt.symm⟩
      simp only [List.foldl_cons, hany, if_pos]
      exact ih (fun z hz => hy z (List.mem_cons_of_mem y hz))
  cases l with
  | nil => exact absurd rfl hne
  | cons x xs =>
    have hx : x = t := hall x (List.mem_cons_self x xs)
    subst hx
    simp only [dedupFirstBy, List.foldl_cons, List.any_nil, Bool.false_eq_true, if_false,
      List.nil_append]
    exact step xs (fun z hz => hall z (List.mem_cons_of_mem x hz))

/-- Looking a column up in a map built over the column list itself. -/
theorem lookupA_map_self {α : Type} (f : String → α) (col : String) :
    ∀ columns : List String, col ∈ columns →
      lookupA (columns.map (fun c => (c, f c))) col = some (f col) := by
  intro columns
  induction columns with
  | nil => intro h; simp at h
  | cons c cs ih =>
    intro h
    simp only [List.map_cons, lookupA, List.find?_cons]
    by_cases hc : c == col
    · have : c = col := by simpa using hc
      subst this
      simp
    · simp only [hc, Bool.false_eq_true]
      have hmem : col ∈ cs := by
        rcases List.mem_cons.mp h with h1 | h1
        · exact absurd (by simp [h1]) hc
        · exact h1
      have := ih hmem
      simpa [lookupA] using this

/-- Shape of a successful analyzeDataStructure call: the columns come from
the first row and the type map is computed per column by columnTypeOf. -/
theorem analyzeDS_some (data : List JSRow) (d : DataStructure)
    (h : analyzeDataStructure (some data) = some d) :
    d.columns = (data.headD []).map (fun p => p.1) ∧
    d.columnTypes =
      ((data.headD []).map (fun p => p.1)).map (fun col => (col, columnTypeOf data col)) := by
  simp only [analyzeDataStructure] at h
  by_cases he : data.isEmpty
  · simp [he] at h
  · simp only [he, Bool.false_eq_true, if_false, Option.some.injEq] at h
    subst h
    exact ⟨rfl, rfl⟩

end InspectorLemmas

section InspectorClaims

/-- C3 (amended): in the Data Structure Inspector, a column whose sampled
non-null values are empty is reported as "mixed" (the same label as a
multi-type column), not as a separate "unknown" default; exactly one
distinct JS type among the non-null samples reports that type, and two or
more distinct types report "mixed". -/
theorem columnType_classification (data : List JSRow) (d : DataStructure) (col : String)
    (h : analyzeDataStructure (some data) = some d) (hcol : col ∈ d.columns) :
    (sampleVals data col = [] → lookupA d.columnTypes col = some "mixed") ∧
    (∀ t : String, sampleVals data col ≠ [] →
      (∀ v ∈ sampleVals data col, typeofTag v = t) →
      lookupA d.columnTypes col = some t) ∧
    (2 ≤ ((sampleVals data col).map typeofTag).toFinset.card →
      lookupA d.columnTypes col = some "mixed") := by
  obtain ⟨hcols, htypes⟩ := analyzeDS_some data d h
  rw [hcols] at hcol
  rw [htypes, lookupA_map_self _ col _ hcol]
  have heq : ∀ a b : String, (a == b) = true ↔ a = b := fun a b => beq_iff_eq
  refine ⟨?_, ?_, ?_⟩
  · intro hs
    simp [columnTypeOf, hs, dedupFirstBy]
  · intro t hne hall
    have hd : dedupFirstBy (fun a b => a == b) ((sampleVals data col).map typeofTag) = [t] := by
      refine dedupFirstBy_all_single _ heq _ t (by simpa using hne) ?_
      intro x hx
      rcases List.mem_map.mp hx with ⟨v, hv, hvt⟩
      exact hvt ▸ hall v hv
    simp [columnTypeOf, hd]
  · intro hcard
    rcases hd : dedupFirstBy (fun a b => a == b) ((sampleVals data col).map typeofTag)
      with _ | ⟨t, _ | ⟨u, rest⟩⟩
    · simp [columnTypeOf, hd]
    · exfalso
      have hsub : ((sampleVals data col).map typeofTag).toFinset ⊆ {t} := by
        intro x hx
        rw [List.mem_toFinset] at hx
        have hmem := (dedupFirstBy_mem _ heq _ x).mpr hx
        rw [hd] at hmem
        simpa using hmem
      have hle := Finset.card_le_card hsub
      simp at hle
      omega
    · simp [columnTypeOf, hd]

/-- C3 counterexample: a column with zero non-null sampled entries (here
column "A", whose only cell is null) is reported as "mixed" by the
inspector, not as the neutral "unknown" the claim states. -/
theorem inspector_empty_column_mixed :
    (analyzeDataStructure (some [[("A", JSValue.null), ("B", JSValue.str "x")]])).map
      (fun d => lookupA d.columnTypes "A") = some (some "mixed") := rfl

/-- A descriptor with every field empty, used only as the default of an
Option projection. -/
def defaultDS : DataStructure :=
  { totalRows := 0, columns := [], columnTypes := [], columnPatterns := [],
    dataQuality := [], sample := [], specialColumns := ⟨[], [], [], []⟩,
    hasDateColumns := false, hasStatusColumns := false, hasUserColumns := false,
    qualityScore := "", recommendations := [] }

/-- The concrete dataset of the C3 witness: column "A" holds only strings,
column "B" has no non-null samples, column "C" mixes a string and a number. -/
def data3w : List JSRow :=
  [[("A", JSValue.str "x"), ("B", JSValue.null), ("C", JSValue.str "y")],
   [("A", JSValue.str "z"), ("C", JSValue.num ⟨2, 0⟩)]]

/-- The descriptor the inspector computes for the witness dataset. -/
def d3w : DataStructure := (analyzeDataStructure (some data3w)).getD defaultDS

/-- Witness for C3: the single-type column reports "string" and the
two-type column reports "mixed". -/
theorem columnType_classification_witness :
    lookupA d3w.columnTypes "A" = some "string" ∧
    lookupA d3w.columnTypes "C" = some "mixed" := by
  have hA := columnType_classification data3w d3w "A" rfl (by decide)
  have hC := columnType_classification data3w d3w "C" rfl (by decide)
  exact ⟨hA.2.1 "string" (by decide) (by decide), hC.2.2 (by decide)⟩

end InspectorClaims

section AnalyzerLemmas

/-- The invariant carried through the per-ticket loop for each top-level
bucket: counters conserve (a row contributes to at most one of violations /
compliance, and only when it contributed to the total) and the percentage
strings still hold their initial literals. -/
def bucketInv (b : SLABucket) : Prop :=
  b.violations + b.compliance ≤ b.total ∧
  b.compliancePercentage = "0" ∧ b.violationPercentage = "0"

/-- The freshly initialised bucket satisfies the loop invariant. -/
theorem bucketInv_init : bucketInv SLABucket.init :=
  ⟨Nat.le_refl 0, rfl, rfl⟩

/-- The counter-bumping block never touches the first-response bucket. -/
theorem bumpCounters_fr (st : SLAAnalysis) (ag cat pri dk dyk mk : String) :
    (bumpCounters st ag cat pri dk dyk mk).firstResponseSLA = st.firstResponseSLA := rfl

/-- The counter-bumping block never touches the resolution bucket. -/
theorem bumpCounters_res (st : SLAAnalysis) (ag cat pri dk dyk mk : String) :
    (bumpCounters st ag cat pri dk dyk mk).resolutionSLA = st.resolutionSLA := rfl

/-- One SLA status pass preserves the invariant of both buckets. -/
theorem applySLA_inv (iR : Bool) (v : JSValue) (ag cat pri dk dyk mk : String)
    (st : SLAAnalysis) (h1 : bucketInv st.firstResponseSLA)
    (h2 : bucketInv st.resolutionSLA) :
    bucketInv (applySLA iR v ag cat pri dk dyk mk st).firstResponseSLA ∧
    bucketInv (applySLA iR v ag cat pri dk dyk mk st).resolutionSLA := by
  obtain ⟨hc1, hp1, hq1⟩ := h1
  obtain ⟨hc2, hp2, hq2⟩ := h2
  cases iR <;> simp only [applySLA] <;> split_ifs <;>
    refine ⟨⟨?_, ?_, ?_⟩, ⟨?_, ?_, ?_⟩⟩ <;> simp_all <;> omega

/-- One ticket preserves the invariant of both buckets. -/
theorem processTicket_inv (now : String) (st : SLAAnalysis) (t : JSRow)
    (st2 : SLAAnalysis) (h : processTicket now st t = .ok st2)
    (h1 : bucketInv st.firstResponseSLA) (h2 : bucketInv st.resolutionSLA) :
    bucketInv st2.firstResponseSLA ∧ bucketInv st2.resolutionSLA := by
  have key : ∀ s : String, st2 = processTicketDated st t s →
      bucketInv st2.firstResponseSLA ∧ bucketInv st2.resolutionSLA := by
    intro s hs
    subst hs
    unfold processTicketDated
    exact applySLA_inv false _ _ _ _ _ _ _ _
      (applySLA_inv true _ _ _ _ _ _ _ _ (by rw [bumpCounters_fr]; exact h1)
        (by rw [bumpCounters_res]; exact h2)).1
      (applySLA_inv true _ _ _ _ _ _ _ _ (by rw [bumpCounters_fr]; exact h1)
        (by rw [bumpCounters_res]; exact h2)).2
  unfold processTicket at h
  rcases hv : resolveFirstTruthy t ["Created Date", "Date Created", "Created"]
    with _ | s | d | b <;> rw [hv] at h
  · exact key now (by injection h with h; exact h.symm)
  · exact key s (by injection h with h; exact h.symm)
  · exact absurd h (by simp)
  · exact absurd h (by simp)

/-- The whole ticket loop preserves the invariant of both buckets. -/
theorem runTickets_inv (now : String) (rows : List JSRow) :
    ∀ st st2 : SLAAnalysis, runTickets now st rows = .ok st2 →
      bucketInv st.firstResponseSLA → bucketInv st.resolutionSLA →
      bucketInv st2.firstResponseSLA ∧ bucketInv st2.resolutionSLA := by
  induction rows with
  | nil =>
    intro st st2 h h1 h2
    have : st = st2 := by injection h
    exact this ▸ ⟨h1, h2⟩
  | cons r rs ih =>
    intro st st2 h h1 h2
    unfold runTickets at h
    rcases hp : processTicket now st r with e | mid <;> rw [hp] at h
    · exact absurd h (by simp)
    · have hmid := processTicket_inv now st r mid hp h1 h2
      exact ih mid st2 h hmid.1 hmid.2

/-- Successful analysis of a non-empty dataset factors through the ticket
loop and the post-pass. -/
theorem analyze_ok_shape (now : String) (rows : List JSRow) (a : SLAAnalysis)
    (h : analyzeSLAPerformance now (some rows) = .ok (some a)) :
    ∃ st, runTickets now (initialAnalysis rows.length) rows = .ok st ∧ a = finalize st := by
  simp only [analyzeSLAPerformance] at h
  by_cases he : rows.isEmpty
  · simp [he] at h
  · simp only [he, Bool.false_eq_true, if_false] at h
    rcases hr : runTickets now (initialAnalysis rows.length) rows with e | st <;> rw [hr] at h
    · exact absurd h (by simp)
    · refine ⟨st, rfl, ?_⟩
      injection h with h
      injection h with h
      exact h.symm

/-- The post-pass leaves a bucket's three counters unchanged. -/
theorem finalizeBucket_counts (b : SLABucket) :
    (finalizeBucket b).violations = b.violations ∧
    (finalizeBucket b).compliance = b.compliance ∧
    (finalizeBucket b).total = b.total := by
  unfold finalizeBucket
  split_ifs <;> exact ⟨rfl, rfl, rfl⟩

/-- The first-response bucket of the finalized analysis. -/
theorem finalize_fr (st : SLAAnalysis) :
    (finalize st).firstResponseSLA = finalizeBucket st.firstResponseSLA := rfl

/-- The resolution bucket of the finalized analysis. -/
theorem finalize_res (st : SLAAnalysis) :
    (finalize st).resolutionSLA = finalizeBucket st.resolutionSLA := rfl

/-- The bucket invariant at the end of the loop, for a successful analysis. -/
theorem analyze_ok_inv (now : String) (rows : List JSRow) (a : SLAAnalysis)
    (h : analyzeSLAPerformance now (some rows) = .ok (some a)) :
    ∃ st, a = finalize st ∧ bucketInv st.firstResponseSLA ∧ bucketInv st.resolutionSLA := by
  obtain ⟨st, hrun, ha⟩ := analyze_ok_shape now rows a h
  refine ⟨st, ha, ?_, ?_⟩ <;>
    [exact (runTickets_inv now rows _ st hrun bucketInv_init bucketInv_init).1;
     exact (runTickets_inv now rows _ st hrun bucketInv_init bucketInv_init).2]

end AnalyzerLemmas

section AnalyzerBucketLemmas

/-- A finalized non-empty bucket reports exactly the two `toFixed(1)`
percentages of its own counters. -/
theorem finalizeBucket_formula (b : SLABucket) (h : (finalizeBucket b).total > 0) :
    (finalizeBucket b).compliancePercentage =
      toFixed1 ((((finalizeBucket b).total : ℚ) - ((finalizeBucket b).violations : ℚ)) /
        ((finalizeBucket b).total : ℚ) * 100) ∧
    (finalizeBucket b).violationPercentage =
      toFixed1 (((finalizeBucket b).violations : ℚ) / ((finalizeBucket b).total : ℚ) * 100) := by
  unfold finalizeBucket at h ⊢
  split_ifs at h ⊢ with hc
  · simp only
    constructor
    · show fixed1 ((b.total : Int) - b.violations) b.total = _
      unfold fixed1 toFixed1
      rw [pctTenths_eq_tenthsOf _ _ hc]
      congr 2
      push_cast
      ring
    · show fixed1 (b.violations : Int) b.total = _
      unfold fixed1 toFixed1
      rw [pctTenths_eq_tenthsOf _ _ hc]
      congr 2
  · exact absurd h (by omega)

/-- A finalized bucket that satisfies the loop invariant reports bounded
percentages, and the literal string "0" for both when its total is zero. -/
theorem finalizeBucket_bounds (b : SLABucket) (hinv : bucketInv b) :
    pctBounded (finalizeBucket b).compliancePercentage ∧
    pctBounded (finalizeBucket b).violationPercentage ∧
    ((finalizeBucket b).total = 0 →
      (finalizeBucket b).compliancePercentage = "0" ∧
      (finalizeBucket b).violationPercentage = "0") := by
  obtain ⟨hcons, hcp, hvp⟩ := hinv
  unfold finalizeBucket
  split_ifs with hc
  · simp only
    have hv_le : b.violations ≤ b.total := by omega
    refine ⟨fixed1_bounded _ _ hc (by omega) (by omega),
            fixed1_bounded _ _ hc (by positivity) (by exact_mod_cast hv_le),
            fun h0 => absurd h0 (by omega)⟩
  · exact ⟨Or.inl hcp, Or.inl hvp, fun _ => ⟨hcp, hvp⟩⟩

end AnalyzerBucketLemmas

section AnalyzerClaims

/-- C1: for each top-level SLA bucket with a positive total, the reported
compliancePercentage is (total - violations) / total * 100 rounded to one
decimal place, and the violationPercentage is violations / total * 100
rounded to one decimal place. -/
theorem slaPercentage_formula (now : String) (rows : List JSRow) (a : SLAAnalysis)
    (h : analyzeSLAPerformance now (some rows) = .ok (some a)) :
    (a.firstResponseSLA.total > 0 →
      a.firstResponseSLA.compliancePercentage =
        toFixed1 (((a.firstResponseSLA.total : ℚ) - (a.firstResponseSLA.violations : ℚ)) /
          (a.firstResponseSLA.total : ℚ) * 100) ∧
      a.firstResponseSLA.violationPercentage =
        toFixed1 ((a.firstResponseSLA.violations : ℚ) / (a.firstResponseSLA.total : ℚ) * 100)) ∧
    (a.resolutionSLA.total > 0 →
      a.resolutionSLA.compliancePercentage =
        toFixed1 (((a.resolutionSLA.total : ℚ) - (a.resolutionSLA.violations : ℚ)) /
          (a.resolutionSLA.total : ℚ) * 100) ∧
      a.resolutionSLA.violationPercentage =
        toFixed1 ((a.resolutionSLA.violations : ℚ) / (a.resolutionSLA.total : ℚ) * 100)) := by
  obtain ⟨st, hrun, ha⟩ := analyze_ok_shape now rows a h
  subst ha
  rw [finalize_fr, finalize_res]
  exact ⟨fun h1 => finalizeBucket_formula _ h1, fun h2 => finalizeBucket_formula _ h2⟩

/-- The shared timestamp parameter used for the concrete analyzer runs. -/
def nowW : String := "2024-01-01T00:00:00.000Z"

/-- Projection of a successful non-null analyzer result (the fallback is
never reached in the uses below). -/
def okSomeOf (r : Except String (Option SLAAnalysis)) : SLAAnalysis :=
  match r with
  | .ok (some a) => a
  | _ => initialAnalysis 0

/-- The dataset of the C1 witness: first-response counts 3/1, resolution
counts 2/1. -/
def rows1w : List JSRow :=
  [[("First Response Status", JSValue.str "Violated"), ("Resolution Status", JSValue.str "Met")],
   [("First Response Status", JSValue.str "Met"), ("Resolution Status", JSValue.str "Violated")],
   [("First Response Status", JSValue.str "Met")]]

/-- The analysis the analyzer computes for the C1 witness dataset. -/
def a1w : SLAAnalysis := okSomeOf (analyzeSLAPerformance nowW (some rows1w))

/-- Witness for C1: on a concrete run the first-response bucket (total 3,
violations 1) reports exactly the rounded formula value, which evaluates to
"66.7". -/
theorem slaPercentage_formula_witness :
    a1w.firstResponseSLA.compliancePercentage =
      toFixed1 (((a1w.firstResponseSLA.total : ℚ) - (a1w.firstResponseSLA.violations : ℚ)) /
        (a1w.firstResponseSLA.total : ℚ) * 100) ∧
    a1w.firstResponseSLA.compliancePercentage = "66.7" ∧
    a1w.firstResponseSLA.violationPercentage = "33.3" := by
  have h := slaPercentage_formula nowW rows1w a1w rfl
  exact ⟨(h.1 (by decide)).1, by decide, by decide⟩

/-- C5: every reported top-level percentage lies between 0 and 100 (it is
either the initial literal "0" or the rendering of a tenths value between 0
and 1000), and a bucket with total 0 reports the string "0" for both
fields; the model is total, so no division-by-zero exception or NaN exists
on any path. -/
theorem slaPercentage_bounds (now : String) (rows : List JSRow) (a : SLAAnalysis)
    (h : analyzeSLAPerformance now (some rows) = .ok (some a)) :
    pctBounded a.firstResponseSLA.compliancePercentage ∧
    pctBounded a.firstResponseSLA.violationPercentage ∧
    pctBounded a.resolutionSLA.compliancePercentage ∧
    pctBounded a.resolutionSLA.violationPercentage ∧
    (a.firstResponseSLA.total = 0 →
      a.firstResponseSLA.compliancePercentage = "0" ∧
      a.firstResponseSLA.violationPercentage = "0") ∧
    (a.resolutionSLA.total = 0 →
      a.resolutionSLA.compliancePercentage = "0" ∧
      a.resolutionSLA.violationPercentage = "0") := by
  obtain ⟨st, hrun, ha⟩ := analyze_ok_shape now rows a h
  have hinv := runTickets_inv now rows _ st hrun bucketInv_init bucketInv_init
  subst ha
  rw [finalize_fr, finalize_res]
  have hfr := finalizeBucket_bounds st.firstResponseSLA hinv.1
  have hres := finalizeBucket_bounds st.resolutionSLA hinv.2
  exact ⟨hfr.1, hfr.2.1, hres.1, hres.2.1, hfr.2.2, hres.2.2⟩

/-- The dataset of the C5 witness: one recognised first-response status and
no resolution status at all. -/
def rows5w : List JSRow := [[("First Response Status", JSValue.str "Met")]]

/-- The analysis the analyzer computes for the C5 witness dataset. -/
def a5w : SLAAnalysis := okSomeOf (analyzeSLAPerformance nowW (some rows5w))

/-- Witness for C5: the populated bucket reports a bounded percentage and
the empty resolution bucket reports the string "0" twice. -/
theorem slaPercentage_bounds_witness :
    pctBounded a5w.firstResponseSLA.compliancePercentage ∧
    a5w.resolutionSLA.total = 0 ∧
    a5w.resolutionSLA.compliancePercentage = "0" ∧
    a5w.resolutionSLA.violationPercentage = "0" := by
  have h := slaPercentage_bounds nowW rows5w a5w rfl
  have h0 := h.2.2.2.2.2 (by decide)
  exact ⟨h.1, by decide, h0.1, h0.2⟩

/-- C6: for every input dataset the two top-level buckets conserve their
counters: violations + compliance never exceeds total (a record with a
recognised status adds one to the total and to at most one of the other
two). -/
theorem slaBucket_conservation (now : String) (rows : List JSRow) (a : SLAAnalysis)
    (h : analyzeSLAPerformance now (some rows) = .ok (some a)) :
    a.firstResponseSLA.violations + a.firstResponseSLA.compliance ≤
      a.firstResponseSLA.total ∧
    a.resolutionSLA.violations + a.resolutionSLA.compliance ≤
      a.resolutionSLA.total := by
  obtain ⟨st, hrun, ha⟩ := analyze_ok_shape now rows a h
  have hinv := runTickets_inv now rows _ st hrun bucketInv_init bucketInv_init
  subst ha
  rw [finalize_fr, finalize_res]
  obtain ⟨c1, -, -⟩ := finalizeBucket_counts st.firstResponseSLA
  obtain ⟨c2, -, -⟩ := finalizeBucket_counts st.resolutionSLA
  constructor
  · rw [(finalizeBucket_counts st.firstResponseSLA).1,
        (finalizeBucket_counts st.firstResponseSLA).2.1,
        (finalizeBucket_counts st.firstResponseSLA).2.2]
    exact hinv.1.1
  · rw [(finalizeBucket_counts st.resolutionSLA).1,
        (finalizeBucket_counts st.resolutionSLA).2.1,
        (finalizeBucket_counts st.resolutionSLA).2.2]
    exact hinv.2.1

/-- The dataset of the C6 witness: one violation, one compliant row, and
one row whose status matches neither keyword set (counted in the total
only). -/
def rows6w : List JSRow :=
  [[("First Response Status", JSValue.str "Violated")],
   [("First Response Status", JSValue.str "Met")],
   [("First Response Status", JSValue.str "pending review")]]

/-- The analysis the analyzer computes for the C6 witness dataset. -/
def a6w : SLAAnalysis := okSomeOf (analyzeSLAPerformance nowW (some rows6w))

/-- Witness for C6 at a concrete dataset where the inequality is strict
(violations 1 + compliance 1 < total 3). -/
theorem slaBucket_conservation_witness :
    (a6w.firstResponseSLA.violations + a6w.firstResponseSLA.compliance ≤
      a6w.firstResponseSLA.total) ∧
    a6w.firstResponseSLA.violations = 1 ∧
    a6w.firstResponseSLA.compliance = 1 ∧
    a6w.firstResponseSLA.total = 3 := by
  have h := slaBucket_conservation nowW rows6w a6w rfl
  exact ⟨h.1, by decide, by decide, by decide⟩

end AnalyzerClaims

section AnalyzerSafetyClaims

/-- A row's resolved created-date chain yields either nothing or a string -
the condition under which the `.substring` calls cannot throw. -/
def createdDateOK (t : JSRow) : Bool :=
  match resolveFirstTruthy t ["Created Date", "Date Created", "Created"] with
  | .num _ => false
  | .bool _ => false
  | _ => true

/-- Did the analyzer return a non-null analysis without throwing? -/
def isOkSome (r : Except String (Option SLAAnalysis)) : Bool :=
  match r with
  | .ok (some _) => true
  | _ => false

/-- Under string-only created dates, the ticket loop never throws. -/
theorem runTickets_total (now : String) (rows : List JSRow)
    (h : ∀ t ∈ rows, createdDateOK t = true) :
    ∀ st : SLAAnalysis, ∃ st2, runTickets now st rows = .ok st2 := by
  induction rows with
  | nil => intro st; exact ⟨st, rfl⟩
  | cons r rs ih =>
    intro st
    have hr := h r (List.mem_cons_self r rs)
    have hstep : ∃ mid, processTicket now st r = .ok mid := by
      unfold processTicket
      rcases hv : resolveFirstTruthy r ["Created Date", "Date Created", "Created"]
        with _ | s | d | b
      · exact ⟨_, rfl⟩
      · exact ⟨_, rfl⟩
      · simp [createdDateOK, hv] at hr
      · simp [createdDateOK, hv] at hr
    obtain ⟨mid, hmid⟩ := hstep
    obtain ⟨st2, h2⟩ := ih (fun t ht => h t (List.mem_cons_of_mem r ht)) mid
    exact ⟨st2, by simp [runTickets, hmid, h2]⟩

/-- C2 counterexample: a single record whose created-date column holds a
(truthy) number makes the analyzer call `.substring` on a non-string, i.e.
throw a TypeError, so the claim that it never throws for every input array
is false. -/
theorem analyzer_throws_on_numeric_date :
    analyzeSLAPerformance "2024-01-01T00:00:00.000Z"
      (some [[("Created Date", JSValue.num ⟨45000, 0⟩)]]) =
      .error "TypeError: createdDate.substring is not a function" := rfl

/-- C2 (amended): the analyzer returns null for missing or empty input and
otherwise a complete analysis, never throwing, provided every record's
resolved created-date value (when present and truthy) is a string; absent
or non-string agent, category and SLA-status columns are harmless, but a
truthy non-string created date throws. -/
theorem analyzer_total_on_string_dates (now : String) (rows : List JSRow)
    (h : ∀ t ∈ rows, createdDateOK t = true) :
    analyzeSLAPerformance now none = .ok none ∧
    (rows = [] → analyzeSLAPerformance now (some rows) = .ok none) ∧
    (rows ≠ [] → isOkSome (analyzeSLAPerformance now (some rows)) = true) := by
  refine ⟨rfl, ?_, ?_⟩
  · rintro rfl; rfl
  · intro hne
    obtain ⟨st2, h2⟩ := runTickets_total now rows h (initialAnalysis rows.length)
    have he : rows.isEmpty = false := by
      cases rows with
      | nil => exact absurd rfl hne
      | cons r rs => rfl
    simp [analyzeSLAPerformance, he, h2, isOkSome]

/-- The dataset of the C2 witness: a numeric SLA status (stringified by the
classifier, not thrown on) and no date column. -/
def rows2w : List JSRow :=
  [[("Agent", JSValue.str "A"), ("First Response Status", JSValue.num ⟨7, 0⟩)]]

/-- Witness for C2: the analyzer completes on the witness dataset and
returns null on the empty array. -/
theorem analyzer_total_on_string_dates_witness :
    isOkSome (analyzeSLAPerformance nowW (some rows2w)) = true ∧
    analyzeSLAPerformance nowW (some ([] : List JSRow)) = .ok none := by
  have h1 := analyzer_total_on_string_dates nowW rows2w (by decide)
  have h2 := analyzer_total_on_string_dates nowW [] (by decide)
  exact ⟨h1.2.2 (by decide), h2.2.1 rfl⟩

end AnalyzerSafetyClaims

section InsightsClaims

/-- An agent record entering the insights stage of the C9 scenario: only
the fields the insights derivation reads are populated meaningfully. -/
def scenarioAgent (rate : String) (tot tv : Nat) : AgentStats :=
  { total := tot, responseViolations := 0, resolutionViolations := tv,
    totalViolations := tv, complianceRate := .str rate,
    averageResponseTime := ⟨0, 0⟩, categories := [("X", tot)], priorities := [],
    topCategory := .str "X" }

/-- The C9 scenario analysis: three agents with compliance rates 100.0,
92.0 and 80.0 percent, listed out of order so the descending sort is
observable. -/
def insightsScenario : SLAAnalysis :=
  { initialAnalysis 40 with agents :=
      [("Bob", scenarioAgent "92.0" 25 2),
       ("Cara", scenarioAgent "80.0" 5 1),
       ("Alice", scenarioAgent "100.0" 10 0)] }

/-- C9: on three agents with compliance rates 100, 92 and 80 percent, the
insights derivation lists all three as top performers in descending order of
compliance rate, and the improvement areas (rates strictly below 90)
contain only the 80-percent agent.  The decimal ⟨1000, 1⟩ is the parsed
value 100.0, ⟨920, 1⟩ is 92.0, and ⟨800, 1⟩ is 80.0. -/
theorem insights_ranking_scenario :
    (generatePerformanceInsights insightsScenario).topPerformers =
      [⟨"Alice", ⟨1000, 1⟩, 10, 0⟩, ⟨"Bob", ⟨920, 1⟩, 25, 2⟩, ⟨"Cara", ⟨800, 1⟩, 5, 1⟩] ∧
    (generatePerformanceInsights insightsScenario).improvementAreas =
      [⟨"Cara", ⟨800, 1⟩, 5, 1⟩] := by
  exact ⟨by decide, by decide⟩

/-- The one-ticket dataset of C10: both SLA statuses violated. -/
def rows10 : List JSRow :=
  [[("Agent", JSValue.str "A"),
    ("First Response Status", JSValue.str "Violated"),
    ("Resolution Status", JSValue.str "Violated")]]

/-- The compliance rate the analyzer reports for one agent. -/
def agentComplianceOf (r : Except String (Option SLAAnalysis)) (k : String) :
    Option JSValue :=
  match r with
  | .ok (some a) => (lookupA a.agents k).map (fun s => s.complianceRate)
  | _ => none

/-- The (total, totalViolations) pair the analyzer reports for one agent. -/
def agentCountsOf (r : Except String (Option SLAAnalysis)) (k : String) :
    Option (Nat × Nat) :=
  match r with
  | .ok (some a) => (lookupA a.agents k).map (fun s => (s.total, s.totalViolations))
  | _ => none

/-- C10: a single ticket violating both SLAs gives its agent one ticket but
two summed violations, and the unclamped per-agent compliance rate
(total - totalViolations) / total * 100 is reported as the negative string
"-100.0" (whose parsed value is below zero). -/
theorem negative_agent_compliance_rate :
    agentComplianceOf (analyzeSLAPerformance nowW (some rows10)) "A" =
      some (JSValue.str "-100.0") ∧
    agentCountsOf (analyzeSLAPerformance nowW (some rows10)) "A" = some (1, 2) ∧
    DecNum.blt (jsParseDec "-100.0") ⟨0, 0⟩ = true := by
  exact ⟨by decide, by decide, by decide⟩

end InsightsClaims
